import Mathlib

/-!
Verification of the visitor-counter behaviour of the cloud-resume repository.

The client side is a shallow embedding of frontend/script.js: the retry loop
fetchVisitorCount, the timeout race, the count extraction from the response
body, and the animateValue display animation.  JavaScript numbers are modelled
as rationals.  The server side (the Lambda handler) is not present among the
source files, so it is modelled from the spec where noted.
-/

namespace CloudResume

/-- JavaScript values, as far as script.js inspects them: the truthiness test
used by the fallback chain and the typeof-number check.  Numbers are modelled
as rationals. -/
inductive JSValue where
  | undefined
  | null
  | boolean (b : Bool)
  | number (q : ℚ)
  | string (s : String)
  deriving DecidableEq

/-- JavaScript truthiness for the values above: undefined, null, false, 0 and
the empty string are falsy. -/
def truthy : JSValue → Bool
  | .undefined => false
  | .null => false
  | .boolean b => b
  | .number q => decide (q ≠ 0)
  | .string s => decide (s ≠ "")

/-- typeof v === "number" -/
def isNumber : JSValue → Bool
  | .number _ => true
  | _ => false

/-- A parsed JSON response body, restricted to the three properties the script
reads.  A property missing from the body reads as undefined. -/
structure Body where
  count : JSValue
  visitor_count : JSValue
  visitorCount : JSValue
  deriving DecidableEq

/-- JavaScript a || b : returns a when a is truthy, else b. -/
def jsOr (a b : JSValue) : JSValue := if truthy a then a else b

/-- data.count || data.visitor_count || data.visitorCount
(script.js line 54). -/
def extractCount (data : Body) : JSValue :=
  jsOr data.count (jsOr data.visitor_count data.visitorCount)

/-- The config object of script.js (lines 9-14); apiEndpoint is irrelevant to
the verified behaviour and omitted. -/
structure Config where
  retryAttempts : Nat
  retryDelay : Nat
  timeout : Nat

def config : Config := { retryAttempts := 3, retryDelay := 1000, timeout := 5000 }

/-- How the fetch promise itself settles: a rejection (network error) or a
response with an ok flag, status and parsed JSON body. -/
inductive FetchOutcome where
  | rejected
  | response (ok : Bool) (status : Nat) (body : Body)
  deriving DecidableEq

/-- What one attempt of fetchVisitorCount observes after the race between the
fetch promise and the timeout promise. -/
inductive AttemptEnv where
  | timeoutFired
  | fetchRejected
  | response (ok : Bool) (status : Nat) (body : Body)
  deriving DecidableEq

/-- Promise.race of the fetch promise against timeout(config.timeout)
(script.js lines 40-43): the attempt observes the fetch outcome when the fetch
settles no later than the timer, and the timeout rejection when the timer
settles first. -/
def raceWithTimeout (fetchSettleTime : ℚ) (o : FetchOutcome) : AttemptEnv :=
  if fetchSettleTime ≤ (config.timeout : ℚ) then
    match o with
    | .rejected => .fetchRejected
    | .response ok st b => .response ok st b
  else .timeoutFired

/-- The try block of one attempt (script.js lines 28-60): a timeout, a
rejected fetch, a non-ok response, or a body whose extracted count is not a
number all throw (result none); otherwise updateCounter is called with the
extracted number (result some). -/
def attemptResult : AttemptEnv → Option ℚ
  | .timeoutFired => none
  | .fetchRejected => none
  | .response ok _ body =>
    if ok then
      match extractCount body with
      | .number q => some q
      | _ => none
    else none

/-- Observable events of a run of the client: a request being issued, a
request settling, the fixed inter-attempt delay, and a write of text plus a
color to the counter element. -/
inductive Event where
  | requestStart (attempt : Nat)
  | requestEnd (attempt : Nat) (ok : Bool)
  | delay (ms : Nat)
  | setDisplay (text : String) (color : String)
  deriving DecidableEq

/-- Terminal outcome of the fetch-and-display flow. -/
inductive ClientResult where
  | success (count : ℚ)
  | failed
  deriving DecidableEq

/-- fetchVisitorCount(attempt) of script.js (lines 24-77), as the ordered
trace of events it produces plus its terminal outcome, given the per-attempt
environment envs.  On failure with attempt < config.retryAttempts it waits
config.retryDelay and recurses with attempt + 1; on the final failure it sets
the display to the text Error in the color #ef4444. -/
def fetchVisitorCount (envs : Nat → AttemptEnv) (attempt : Nat) :
    List Event × ClientResult :=
  match attemptResult (envs attempt) with
  | some c => ([.requestStart attempt, .requestEnd attempt true], .success c)
  | none =>
    if hlt : attempt < config.retryAttempts then
      let rest := fetchVisitorCount envs (attempt + 1)
      (Event.requestStart attempt :: Event.requestEnd attempt false ::
        Event.delay config.retryDelay :: rest.1, rest.2)
    else
      ([.requestStart attempt, .requestEnd attempt false,
        .setDisplay "Error" "#ef4444"], .failed)
termination_by config.retryAttempts - attempt
decreasing_by omega

def isStart : Event → Bool
  | .requestStart _ => true
  | _ => false

/-- Number of requests issued in a trace. -/
def countStarts (tr : List Event) : Nat := tr.countP isStart

/-- Checker state for sequential, delayed retries: ready means a request may
start, inflight means exactly one request is pending, ended means the pending
request has settled. -/
inductive TraceState where
  | ready
  | inflight
  | ended
  deriving DecidableEq

/-- One step of the sequentiality checker: a request may start only from the
ready state, only the single in-flight request may settle, and after a
settled request only a delay of exactly config.retryDelay returns the state
to ready.  Display writes leave the state unchanged. -/
def stepTrace : TraceState → Event → Option TraceState
  | .ready, .requestStart _ => some .inflight
  | .inflight, .requestEnd _ _ => some .ended
  | .ended, .delay ms => if ms = config.retryDelay then some .ready else none
  | s, .setDisplay _ _ => some s
  | _, _ => none

/-- A trace is sequential when the checker accepts every event. -/
def checkTrace : TraceState → List Event → Bool
  | _, [] => true
  | s, e :: rest =>
    match stepTrace s e with
    | some s2 => checkTrace s2 rest
    | none => false

/-- The easing of script.js line 95: easeOut = 1 - Math.pow(1 - progress, 3). -/
def easeOutCubic (p : ℚ) : ℚ := 1 - (1 - p) ^ 3

/-- script.js line 92: progress = Math.min(elapsed / duration, 1) where
elapsed = currentTime - startTime. -/
def progressAt (duration startTime t : ℚ) : ℚ :=
  min ((t - startTime) / duration) 1

/-- The text content (as a number) after the update callback of animateValue
(script.js lines 88-107) runs at frame time t: while progress < 1 it shows
Math.floor(start + range * easeOut); at progress = 1 it shows end itself. -/
def animateFrame (s e duration startTime t : ℚ) : ℚ :=
  if progressAt duration startTime t < 1 then
    ((⌊s + (e - s) * easeOutCubic (progressAt duration startTime t)⌋ : ℤ) : ℚ)
  else e

/-- updateCounter(count) of script.js (lines 80-85) starts
animateValue(counterElement, 0, count, 1000). -/
def updateCounterFrame (count startTime t : ℚ) : ℚ :=
  animateFrame 0 count 1000 startTime t

/-! ## Server side

backend/lambda_function.py is not among the source files; the definitions
below are modelled from the spec and from the handler excerpt quoted in
src/README.md (lines 218-230). -/

/-- HTTP method of a request reaching the Lambda handler. -/
inductive Method where
  | OPTIONS
  | POST
  | GET
  deriving DecidableEq

/-- A Lambda proxy response: status code, headers, body. -/
structure LambdaResponse where
  statusCode : Nat
  headers : List (String × String)
  body : String
  deriving DecidableEq

/-- The Counter Record: the single persisted row holding the visitor count. -/
structure CounterRecord where
  count : Nat
  deriving DecidableEq

/-- The CORS headers of the handler excerpt quoted in src/README.md. -/
def corsHeaders : List (String × String) :=
  [("Access-Control-Allow-Origin", "*"),
   ("Access-Control-Allow-Headers", "Content-Type"),
   ("Access-Control-Allow-Methods", "OPTIONS,POST,GET")]

/-- Modelled from the spec: backend/lambda_function.py is absent from the
sources; the storage layer performs the increment as a single atomic
add-and-return primitive (one indivisible step on the Counter Record, not a
read followed by a write), per spec section 3 and the README feature list. -/
def atomicIncrement (r : CounterRecord) : CounterRecord × Nat :=
  (⟨r.count + 1⟩, r.count + 1)

/-- Modelled from the spec: backend/lambda_function.py is absent from the
sources.  The OPTIONS branch follows the handler excerpt quoted in
src/README.md lines 219-229 (status 200, the CORS headers, empty body, no
touch of the counter); POST and GET perform the atomic increment and return
the new count, per spec section 4.1. -/
def handleRequest (m : Method) (r : CounterRecord) :
    LambdaResponse × CounterRecord :=
  match m with
  | .OPTIONS => ({ statusCode := 200, headers := corsHeaders, body := "" }, r)
  | _ =>
    let inc := atomicIncrement r
    ({ statusCode := 200, headers := corsHeaders, body := toString inc.2 },
      inc.1)

/-- A serialized interleaving of requests applied to the Counter Record: each
request is one atomic step, so any concurrent execution is some such list. -/
def applyRequests : List Method → CounterRecord → CounterRecord
  | [], r => r
  | m :: ms, r => applyRequests ms (handleRequest m r).2

def isIncrement : Method → Bool
  | .OPTIONS => false
  | _ => true

/-- Number of increment (POST or GET) requests in a list. -/
def countIncrements : List Method → Nat
  | [] => 0
  | m :: ms => (if isIncrement m then 1 else 0) + countIncrements ms

/-! ## Helper lemmas -/

theorem fetchVisitorCount_allFail (envs : Nat → AttemptEnv)
    (h1 : attemptResult (envs 1) = none)
    (h2 : attemptResult (envs 2) = none)
    (h3 : attemptResult (envs 3) = none) :
    fetchVisitorCount envs 1 =
      ([.requestStart 1, .requestEnd 1 false, .delay 1000,
        .requestStart 2, .requestEnd 2 false, .delay 1000,
        .requestStart 3, .requestEnd 3 false,
        .setDisplay "Error" "#ef4444"], .failed) := by
  rw [fetchVisitorCount, h1]
  rw [fetchVisitorCount, h2]
  rw [fetchVisitorCount, h3]
  simp [config]

/-- The run of fetchVisitorCount depends on the environment only through the
per-attempt results. -/
theorem fetchVisitorCount_congr_aux (k : Nat) :
    ∀ (envs envs' : Nat → AttemptEnv) (a : Nat),
      config.retryAttempts - a ≤ k →
      (∀ i, attemptResult (envs i) = attemptResult (envs' i)) →
      fetchVisitorCount envs a = fetchVisitorCount envs' a := by
  induction k with
  | zero =>
    intro envs envs' a hk h
    rw [fetchVisitorCount]
    conv_rhs => rw [fetchVisitorCount]
    rw [h a]
    cases hres : attemptResult (envs' a) with
    | some c => rfl
    | none =>
      have hge : ¬ a < config.retryAttempts := by
        simp only [config] at hk ⊢
        omega
      simp only [hge, dif_neg, not_false_iff]
  | succ k ih =>
    intro envs envs' a hk h
    rw [fetchVisitorCount]
    conv_rhs => rw [fetchVisitorCount]
    rw [h a]
    cases hres : attemptResult (envs' a) with
    | some c => rfl
    | none =>
      by_cases hlt : a < config.retryAttempts
      · simp only [hlt, dif_pos]
        rw [ih envs envs' (a + 1) (by simp only [config] at hk ⊢; omega) h]
      · simp only [hlt, dif_neg, not_false_iff]

theorem fetchVisitorCount_congr (envs envs' : Nat → AttemptEnv) (a : Nat)
    (h : ∀ i, attemptResult (envs i) = attemptResult (envs' i)) :
    fetchVisitorCount envs a = fetchVisitorCount envs' a :=
  fetchVisitorCount_congr_aux config.retryAttempts envs envs' a
    (Nat.sub_le _ _) h

/-- Every trace of fetchVisitorCount passes the sequentiality checker. -/
theorem checkTrace_fetch_aux (k : Nat) :
    ∀ (envs : Nat → AttemptEnv) (a : Nat),
      config.retryAttempts - a ≤ k →
      checkTrace .ready (fetchVisitorCount envs a).1 = true := by
  induction k with
  | zero =>
    intro envs a hk
    rw [fetchVisitorCount]
    cases hres : attemptResult (envs a) with
    | some c => rfl
    | none =>
      have hge : ¬ a < config.retryAttempts := by
        simp only [config] at hk ⊢
        omega
      simp only [hge, dif_neg, not_false_iff]
      rfl
  | succ k ih =>
    intro envs a hk
    rw [fetchVisitorCount]
    cases hres : attemptResult (envs a) with
    | some c => rfl
    | none =>
      by_cases hlt : a < config.retryAttempts
      · simp only [hlt, dif_pos]
        show checkTrace .ready (fetchVisitorCount envs (a + 1)).1 = true
        exact ih envs (a + 1) (by simp only [config] at hk ⊢; omega)
      · simp only [hlt, dif_neg, not_false_iff]
        rfl

/-- The extracted count is always one of the three body fields (or undefined),
so if no field holds a number, the extracted value is not a number. -/
theorem extractCount_not_number (b : Body)
    (hc : isNumber b.count = false)
    (hv : isNumber b.visitor_count = false)
    (hV : isNumber b.visitorCount = false) :
    isNumber (extractCount b) = false := by
  unfold extractCount jsOr
  split_ifs <;> assumption

/-- A successful HTTP response whose extracted count is not a number makes the
attempt fail. -/
theorem attemptResult_invalid (st : Nat) (b : Body)
    (h : isNumber (extractCount b) = false) :
    attemptResult (.response true st b) = none := by
  simp only [attemptResult, if_true]
  cases hE : extractCount b with
  | number q => rw [hE] at h; simp [isNumber] at h
  | _ => rfl

theorem easeOutCubic_nonneg (p : ℚ) (h0 : 0 ≤ p) (h1 : p ≤ 1) :
    0 ≤ easeOutCubic p := by
  unfold easeOutCubic
  have hb : (1 - p) ^ 3 ≤ 1 := by
    calc (1 - p) ^ 3 ≤ 1 ^ 3 := by
          apply pow_le_pow_left₀ (by linarith) (by linarith)
      _ = 1 := one_pow 3
  linarith

theorem easeOutCubic_le_one (p : ℚ) (h1 : p ≤ 1) : easeOutCubic p ≤ 1 := by
  unfold easeOutCubic
  have hb : 0 ≤ (1 - p) ^ 3 := pow_nonneg (by linarith) 3
  linarith

theorem easeOutCubic_mono (p q : ℚ) (hpq : p ≤ q) (hq : q ≤ 1) :
    easeOutCubic p ≤ easeOutCubic q := by
  unfold easeOutCubic
  have hb : (1 - q) ^ 3 ≤ (1 - p) ^ 3 :=
    pow_le_pow_left₀ (by linarith) (by linarith) 3
  linarith

theorem progressAt_le_one (d st t : ℚ) : progressAt d st t ≤ 1 :=
  min_le_right _ _

theorem progressAt_nonneg (d st t : ℚ) (hd : 0 < d) (h : st ≤ t) :
    0 ≤ progressAt d st t :=
  le_min (div_nonneg (by linarith) hd.le) (by norm_num)

theorem progressAt_mono (d st t1 t2 : ℚ) (hd : 0 < d) (h : t1 ≤ t2) :
    progressAt d st t1 ≤ progressAt d st t2 :=
  min_le_min ((div_le_div_iff_of_pos_right hd).mpr (by linarith)) le_rfl

theorem progressAt_saturated (d st t : ℚ) (hd : 0 < d) (h : st + d ≤ t) :
    progressAt d st t = 1 := by
  unfold progressAt
  rw [min_eq_right]
  rw [le_div_iff₀ hd]
  linarith

/-! ## Claims -/

/-- C1: For every initial counter value and every serialized interleaving of
requests containing N increment calls (any concurrent execution is some such
interleaving because every increment is one indivisible storage step), the
final count of the Counter Record equals the initial value plus N, and the
increment is a single atomic add-and-return primitive on the stored record,
never a separate read followed by a write. -/
theorem counter_atomic_increment (ms : List Method) (r : CounterRecord) :
    (applyRequests ms r).count = r.count + countIncrements ms ∧
    atomicIncrement r = (⟨r.count + 1⟩, r.count + 1) := by
  constructor
  · induction ms generalizing r with
    | nil => simp [applyRequests, countIncrements]
    | cons m rest ih =>
      cases m <;>
        simp [applyRequests, handleRequest, atomicIncrement, countIncrements,
          isIncrement, ih] <;> omega
  · rfl

/-- C2: For a persistently failing endpoint (every attempt fails) the client
issues at most 3 attempts in total — config.retryAttempts = 3 and the trace
holds exactly three requests — with a fixed config.retryDelay = 1000 ms delay
between consecutive attempts and no delay variation (fixed, not exponential,
backoff). -/
theorem retry_three_attempts_fixed_delay (envs : Nat → AttemptEnv)
    (h1 : attemptResult (envs 1) = none)
    (h2 : attemptResult (envs 2) = none)
    (h3 : attemptResult (envs 3) = none) :
    config.retryAttempts = 3 ∧ config.retryDelay = 1000 ∧
    fetchVisitorCount envs 1 =
      ([.requestStart 1, .requestEnd 1 false, .delay 1000,
        .requestStart 2, .requestEnd 2 false, .delay 1000,
        .requestStart 3, .requestEnd 3 false,
        .setDisplay "Error" "#ef4444"], .failed) :=
  ⟨rfl, rfl, fetchVisitorCount_allFail envs h1 h2 h3⟩

theorem retry_three_attempts_fixed_delay_witness :
    attemptResult AttemptEnv.timeoutFired = none ∧
    fetchVisitorCount (fun _ => AttemptEnv.timeoutFired) 1 =
      ([.requestStart 1, .requestEnd 1 false, .delay 1000,
        .requestStart 2, .requestEnd 2 false, .delay 1000,
        .requestStart 3, .requestEnd 3 false,
        .setDisplay "Error" "#ef4444"], .failed) :=
  ⟨rfl, (retry_three_attempts_fixed_delay (fun _ => AttemptEnv.timeoutFired)
    rfl rfl rfl).2.2⟩

/-- C3: When all allowed attempts have failed the client reaches the terminal
failed state: the last display write sets the text Error in the error color
#ef4444 (so the element is not left on a stale or zero value), and exactly 3
requests were started, so no further attempt is made. -/
theorem exhausted_retries_error_display (envs : Nat → AttemptEnv)
    (h1 : attemptResult (envs 1) = none)
    (h2 : attemptResult (envs 2) = none)
    (h3 : attemptResult (envs 3) = none) :
    (fetchVisitorCount envs 1).2 = ClientResult.failed ∧
    (fetchVisitorCount envs 1).1.getLast? =
      some (.setDisplay "Error" "#ef4444") ∧
    countStarts (fetchVisitorCount envs 1).1 = 3 := by
  have h := fetchVisitorCount_allFail envs h1 h2 h3
  rw [h]
  exact ⟨rfl, rfl, rfl⟩

theorem exhausted_retries_error_display_witness :
    attemptResult AttemptEnv.fetchRejected = none ∧
    ((fetchVisitorCount (fun _ => AttemptEnv.fetchRejected) 1).2 =
        ClientResult.failed ∧
      (fetchVisitorCount (fun _ => AttemptEnv.fetchRejected) 1).1.getLast? =
        some (.setDisplay "Error" "#ef4444") ∧
      countStarts (fetchVisitorCount (fun _ => AttemptEnv.fetchRejected) 1).1
        = 3) :=
  ⟨rfl, exhausted_retries_error_display (fun _ => AttemptEnv.fetchRejected)
    rfl rfl rfl⟩

/-- C4: Each attempt races the fetch against the fixed config.timeout = 5000
ms timer; when the timer settles first the attempt observes the timeout
rejection, which fails the attempt, and the whole subsequent run is identical
to the run in which that attempt had instead received an HTTP error
response. -/
theorem timeout_same_retry_path (tf : ℚ) (o : FetchOutcome)
    (envs envs' : Nat → AttemptEnv) (a st : Nat) (b : Body)
    (htf : (config.timeout : ℚ) < tf)
    (ha : envs a = AttemptEnv.timeoutFired)
    (ha' : envs' a = AttemptEnv.response false st b)
    (hagree : ∀ k, k ≠ a → envs k = envs' k) :
    config.timeout = 5000 ∧
    raceWithTimeout tf o = AttemptEnv.timeoutFired ∧
    attemptResult (envs a) = none ∧
    attemptResult (envs' a) = none ∧
    fetchVisitorCount envs a = fetchVisitorCount envs' a := by
  have hres : ∀ i, attemptResult (envs i) = attemptResult (envs' i) := by
    intro i
    by_cases hi : i = a
    · subst hi
      rw [ha, ha']
      rfl
    · rw [hagree i hi]
  refine ⟨rfl, ?_, ?_, ?_, fetchVisitorCount_congr envs envs' a hres⟩
  · unfold raceWithTimeout
    rw [if_neg (not_le.mpr htf)]
  · rw [ha]; rfl
  · rw [ha']; rfl

theorem timeout_same_retry_path_witness :
    ((config.timeout : ℚ) < 5001) ∧
    fetchVisitorCount (fun _ => AttemptEnv.timeoutFired) 1 =
      fetchVisitorCount
        (fun k => if k = 1 then
            AttemptEnv.response false 500 ⟨.undefined, .undefined, .undefined⟩
          else AttemptEnv.timeoutFired) 1 := by
  have htf : (config.timeout : ℚ) < 5001 := by norm_num [config]
  refine ⟨htf, ?_⟩
  exact (timeout_same_retry_path 5001 FetchOutcome.rejected
    (fun _ => AttemptEnv.timeoutFired)
    (fun k => if k = 1 then
        AttemptEnv.response false 500 ⟨.undefined, .undefined, .undefined⟩
      else AttemptEnv.timeoutFired) 1 500
    ⟨.undefined, .undefined, .undefined⟩ htf rfl rfl
    (fun k hk => by simp [hk])).2.2.2.2

/-- C5: The client accepts the count under the field names count,
visitor_count and visitorCount; when a response body yields a number under
none of them the attempt fails, and when that holds of every attempt the
client retries up to the maximum and terminates in the failed state after
exactly config.retryAttempts requests. -/
theorem invalid_body_retries (envs : Nat → AttemptEnv)
    (sts : Nat → Nat) (bodies : Nat → Body)
    (henv : ∀ a, envs a = AttemptEnv.response true (sts a) (bodies a))
    (hb : ∀ a, isNumber (bodies a).count = false ∧
      isNumber (bodies a).visitor_count = false ∧
      isNumber (bodies a).visitorCount = false) :
    attemptResult (.response true 200 ⟨.number 7, .undefined, .undefined⟩)
      = some 7 ∧
    attemptResult (.response true 200 ⟨.undefined, .number 7, .undefined⟩)
      = some 7 ∧
    attemptResult (.response true 200 ⟨.undefined, .undefined, .number 7⟩)
      = some 7 ∧
    (fetchVisitorCount envs 1).2 = ClientResult.failed ∧
    countStarts (fetchVisitorCount envs 1).1 = config.retryAttempts := by
  have hfail : ∀ a, attemptResult (envs a) = none := by
    intro a
    rw [henv a]
    exact attemptResult_invalid (sts a) (bodies a)
      (extractCount_not_number (bodies a) (hb a).1 (hb a).2.1 (hb a).2.2)
  have h := fetchVisitorCount_allFail envs (hfail 1) (hfail 2) (hfail 3)
  rw [h]
  exact ⟨rfl, rfl, rfl, rfl, rfl⟩

theorem invalid_body_retries_witness :
    (fetchVisitorCount (fun _ => AttemptEnv.response true 500
      ⟨.string "x", .undefined, .undefined⟩) 1).2 = ClientResult.failed :=
  (invalid_body_retries
    (fun _ => AttemptEnv.response true 500
      ⟨.string "x", .undefined, .undefined⟩)
    (fun _ => 500)
    (fun _ => ⟨.string "x", .undefined, .undefined⟩)
    (fun _ => rfl) (fun _ => ⟨rfl, rfl, rfl⟩)).2.2.2.1

/-- C6: Every OPTIONS request returns status 200 with an empty body and the
CORS headers Access-Control-Allow-Origin *, Access-Control-Allow-Headers
Content-Type and Access-Control-Allow-Methods OPTIONS,POST,GET, and any
number of OPTIONS calls leaves the Counter Record unchanged. -/
theorem options_cors_counter_unchanged :
    (∀ r : CounterRecord,
      handleRequest Method.OPTIONS r =
        ({ statusCode := 200,
           headers := [("Access-Control-Allow-Origin", "*"),
             ("Access-Control-Allow-Headers", "Content-Type"),
             ("Access-Control-Allow-Methods", "OPTIONS,POST,GET")],
           body := "" }, r)) ∧
    ∀ (n : Nat) (r : CounterRecord),
      applyRequests (List.replicate n Method.OPTIONS) r = r := by
  refine ⟨fun r => rfl, ?_⟩
  intro n
  induction n with
  | zero => intro r; rfl
  | succ n ih =>
    intro r
    rw [List.replicate_succ]
    show applyRequests (List.replicate n Method.OPTIONS) r = r
    exact ih r

/-- C7: At most one request is ever in flight: every trace the client can
produce passes the sequentiality checker, in which a request may start only
when no request is pending and, after an attempt settles, only once the
fixed-delay event has occurred — retries are strictly sequential, never
parallel. -/
theorem sequential_requests (envs : Nat → AttemptEnv) (a : Nat) :
    checkTrace TraceState.ready (fetchVisitorCount envs a).1 = true :=
  checkTrace_fetch_aux config.retryAttempts envs a (Nat.sub_le _ _)

/-- C8: On a successful attempt returning numeric count c the run is a single
request ending in success c, and the display animation starts at 0 with the
fixed 1000 ms duration and the ease-out curve: at every frame at least
1000 ms after its start the displayed value is exactly c. -/
theorem success_animation_settles (envs : Nat → AttemptEnv) (c : ℚ)
    (h : attemptResult (envs 1) = some c) :
    fetchVisitorCount envs 1 =
      ([.requestStart 1, .requestEnd 1 true], ClientResult.success c) ∧
    ∀ startTime t : ℚ, startTime + 1000 ≤ t →
      updateCounterFrame c startTime t = c := by
  constructor
  · rw [fetchVisitorCount, h]
  · intro startTime t ht
    unfold updateCounterFrame animateFrame
    rw [progressAt_saturated 1000 startTime t (by norm_num) ht]
    simp

theorem success_animation_settles_witness :
    attemptResult (AttemptEnv.response true 200
      ⟨.number 1, .undefined, .undefined⟩) = some 1 ∧
    fetchVisitorCount (fun _ => AttemptEnv.response true 200
      ⟨.number 1, .undefined, .undefined⟩) 1 =
      ([.requestStart 1, .requestEnd 1 true], ClientResult.success 1) ∧
    updateCounterFrame 1 0 1000 = 1 := by
  have h : attemptResult (AttemptEnv.response true 200
      ⟨.number 1, .undefined, .undefined⟩) = some 1 := rfl
  have hmain := success_animation_settles
    (fun _ => AttemptEnv.response true 200
      ⟨.number 1, .undefined, .undefined⟩) 1 h
  exact ⟨h, hmain.1, hmain.2 0 1000 (by norm_num)⟩

/-- C9 counterexample: a well-formed success response whose visitorCount
field is the number 0 has an accepted count field holding the number 0, yet
the attempt succeeds with count 0 (the fallback chain returns its final
operand even when falsy), the run ends in success 0, and the animation
settles the display at 0 — so a zero count can be displayed as a success,
refuting the claim. -/
theorem zero_count_counterexample :
    attemptResult (AttemptEnv.response true 200
      ⟨.undefined, .undefined, .number 0⟩) = some 0 ∧
    (fetchVisitorCount (fun _ => AttemptEnv.response true 200
      ⟨.undefined, .undefined, .number 0⟩) 1).2 = ClientResult.success 0 ∧
    updateCounterFrame 0 0 1000 = 0 := by
  refine ⟨rfl, ?_, ?_⟩
  · rw [fetchVisitorCount]
    rfl
  · unfold updateCounterFrame animateFrame
    rw [progressAt_saturated 1000 0 1000 (by norm_num) (by norm_num)]
    simp

/-- C9 amended: a zero count under the count field (or the visitor_count
field) is falsy, falls through the fallback chain, is treated as invalid and
takes the retry path — failing on exhaustion when every attempt carries such
a body; but a zero under visitorCount, the final operand of the chain, is
returned as a number and succeeds, so a zero count can be displayed as a
success exactly when it arrives under the last field name. -/
theorem zero_count_truthiness (st : Nat) (envs : Nat → AttemptEnv)
    (henv : ∀ a, envs a = AttemptEnv.response true st
      ⟨.number 0, .undefined, .undefined⟩) :
    attemptResult (AttemptEnv.response true st
      ⟨.number 0, .undefined, .undefined⟩) = none ∧
    attemptResult (AttemptEnv.response true st
      ⟨.undefined, .number 0, .undefined⟩) = none ∧
    (fetchVisitorCount envs 1).2 = ClientResult.failed ∧
    attemptResult (AttemptEnv.response true st
      ⟨.undefined, .undefined, .number 0⟩) = some 0 := by
  have hfail : ∀ a, attemptResult (envs a) = none := by
    intro a
    rw [henv a]
    rfl
  have h := fetchVisitorCount_allFail envs (hfail 1) (hfail 2) (hfail 3)
  rw [h]
  exact ⟨rfl, rfl, rfl, rfl⟩

theorem zero_count_truthiness_witness :
    (fetchVisitorCount (fun _ => AttemptEnv.response true 200
      ⟨.number 0, .undefined, .undefined⟩) 1).2 = ClientResult.failed :=
  (zero_count_truthiness 200
    (fun _ => AttemptEnv.response true 200
      ⟨.number 0, .undefined, .undefined⟩)
    (fun _ => rfl)).2.2.1

/-- C10 counterexample: with fractional start value 1/2 and end value 1 the
first frame of the animation (progress 0) displays floor of 1/2, that is 0,
which lies strictly below the start value — refuting the claimed lower bound
for arbitrary start values. -/
theorem animation_bounds_counterexample :
    ((1 : ℚ)/2 ≤ 1) ∧ animateFrame (1/2) 1 1000 0 0 = 0 ∧
    ¬ ((1 : ℚ)/2 ≤ animateFrame (1/2) 1 1000 0 0) := by
  have hp : progressAt 1000 0 0 = 0 := by
    unfold progressAt
    rw [show ((0 : ℚ) - 0)/1000 = 0 by norm_num]
    exact min_eq_left (by norm_num)
  have hval : animateFrame (1/2) 1 1000 0 0 = 0 := by
    unfold animateFrame
    rw [hp]
    norm_num [easeOutCubic]
  refine ⟨by norm_num, hval, ?_⟩
  rw [hval]
  norm_num

/-- C10 amended: for an integer start value s (as at the only call site,
where start = 0) and end value e with s ≤ e, every frame of the animation
lies between s and e inclusive and frame values are non-decreasing in time:
progress is clamped at 1 and the ease-out cubic maps [0,1] monotonically into
[0,1], so the display never overshoots e.  (For a fractional start value only
the floor of s bounds from below, as the counterexample shows.) -/
theorem animation_monotone_bounded (s : ℤ) (e : ℚ) (d st t1 t2 : ℚ)
    (hse : (s : ℚ) ≤ e) (hd : 0 < d) (h1 : st ≤ t1) (h12 : t1 ≤ t2) :
    (s : ℚ) ≤ animateFrame s e d st t1 ∧
    animateFrame s e d st t1 ≤ e ∧
    animateFrame s e d st t1 ≤ animateFrame s e d st t2 := by
  have hp10 : 0 ≤ progressAt d st t1 := progressAt_nonneg d st t1 hd h1
  have hp11 : progressAt d st t1 ≤ 1 := progressAt_le_one d st t1
  have hp21 : progressAt d st t2 ≤ 1 := progressAt_le_one d st t2
  have hp12 : progressAt d st t1 ≤ progressAt d st t2 :=
    progressAt_mono d st t1 t2 hd h12
  have hxlo : ∀ p : ℚ, 0 ≤ p → p ≤ 1 →
      (s : ℚ) ≤ (s : ℚ) + (e - (s : ℚ)) * easeOutCubic p := by
    intro p h0 h1p
    have hnn : 0 ≤ (e - (s : ℚ)) * easeOutCubic p :=
      mul_nonneg (by linarith) (easeOutCubic_nonneg p h0 h1p)
    linarith
  have hxhi : ∀ p : ℚ, p ≤ 1 →
      (s : ℚ) + (e - (s : ℚ)) * easeOutCubic p ≤ e := by
    intro p h1p
    have hle : (e - (s : ℚ)) * easeOutCubic p ≤ e - (s : ℚ) :=
      mul_le_of_le_one_right (by linarith) (easeOutCubic_le_one p h1p)
    linarith
  unfold animateFrame
  by_cases c1 : progressAt d st t1 < 1
  · rw [if_pos c1]
    by_cases c2 : progressAt d st t2 < 1
    · rw [if_pos c2]
      refine ⟨?_, ?_, ?_⟩
      · exact_mod_cast Int.le_floor.mpr (hxlo _ hp10 hp11)
      · exact le_trans (Int.floor_le _) (hxhi _ hp11)
      · apply Int.cast_le.mpr
        apply Int.floor_le_floor
        have hmono : easeOutCubic (progressAt d st t1) ≤
            easeOutCubic (progressAt d st t2) :=
          easeOutCubic_mono _ _ hp12 hp21
        have hmul : (e - (s : ℚ)) * easeOutCubic (progressAt d st t1) ≤
            (e - (s : ℚ)) * easeOutCubic (progressAt d st t2) :=
          mul_le_mul_of_nonneg_left hmono (by linarith)
        linarith
    · rw [if_neg c2]
      refine ⟨?_, ?_, ?_⟩
      · exact_mod_cast Int.le_floor.mpr (hxlo _ hp10 hp11)
      · exact le_trans (Int.floor_le _) (hxhi _ hp11)
      · exact le_trans (Int.floor_le _) (hxhi _ hp11)
  · rw [if_neg c1]
    have hge1 : (1 : ℚ) ≤ progressAt d st t1 := not_lt.mp c1
    have c2 : ¬ progressAt d st t2 < 1 := not_lt.mpr (le_trans hge1 hp12)
    rw [if_neg c2]
    exact ⟨hse, le_rfl, le_rfl⟩

theorem animation_monotone_bounded_witness :
    (((0 : ℤ) : ℚ) ≤ 10 ∧ (0 : ℚ) < 1000 ∧ (0 : ℚ) ≤ 500 ∧
      (500 : ℚ) ≤ 1000) ∧
    (((0 : ℤ) : ℚ) ≤ animateFrame ((0 : ℤ) : ℚ) 10 1000 0 500 ∧
      animateFrame ((0 : ℤ) : ℚ) 10 1000 0 500 ≤ 10 ∧
      animateFrame ((0 : ℤ) : ℚ) 10 1000 0 500 ≤
        animateFrame ((0 : ℤ) : ℚ) 10 1000 0 1000) :=
  ⟨⟨by norm_num, by norm_num, by norm_num, by norm_num⟩,
    animation_monotone_bounded 0 10 1000 0 500 1000 (by norm_num)
      (by norm_num) (by norm_num) (by norm_num)⟩

end CloudResume
